import Mathlib

/-
Verification of the temperature controller in controller.py (tmsquill/rv).

The program drives a space-heater relay from a temperature sensor with a
hysteresis band [temperature_lower, temperature_upper], renders the current
band on an 8x8 LED matrix, and runs both loops as asyncio tasks.

Temperatures are modelled as rationals (the Python floats are used only
through comparisons and affine arithmetic), the relay state as an enum, and
the LED matrix frames as lists of RGB triples.
-/

namespace RV

/-- Relay state: `relay.value == 0` is Off, `relay.value == 1` is On. -/
inductive ActuatorState
  | Off
  | On
deriving DecidableEq

/-- An RGB colour triple as passed to `SENSE.clear`. -/
abbrev Color := ℕ × ℕ × ℕ

/-- The colour `(0, 0, 0)` (the constant `O` in controller.py, also the
colour of a cleared matrix). -/
def colorBlack : Color := (0, 0, 0)

/-- The "cold" colour `(0, 0, 255)` from controller.py line 59. -/
def colorBlue : Color := (0, 0, 255)

/-- The "hot" colour `(255, 0, 0)` from controller.py line 63. -/
def colorRed : Color := (255, 0, 0)

/-- The "nominal" colour `(255, 255, 255)` from controller.py line 67. -/
def colorWhite : Color := (255, 255, 255)

/-- `SENSE.clear(c)` fills the whole 8x8 matrix with one colour. -/
def senseClear (c : Color) : List Color := List.replicate 64 c

/-- Band-colour classification performed by the body of
`loop_update_led_matrix` (controller.py lines 57-67): below the lower
threshold clear to blue, above the upper threshold clear to red, otherwise
clear to white. -/
def ledMatrixColor (temperature_lower temperature_upper t : ℚ) : Color :=
  if t < temperature_lower then colorBlue
  else if t > temperature_upper then colorRed
  else colorWhite

/-- The frame pushed to the display in one LED-matrix tick. -/
def ledMatrixFrame (temperature_lower temperature_upper t : ℚ) : List Color :=
  senseClear (ledMatrixColor temperature_lower temperature_upper t)

/-- The frames pushed over `n` LED-matrix ticks during which the shared
temperature stays at `t` (each iteration of the loop recomputes the band
colour from the same inputs and pushes one frame). -/
def displayFrames (temperature_lower temperature_upper t : ℚ) : ℕ → List (List Color)
  | 0 => []
  | n + 1 => ledMatrixFrame temperature_lower temperature_upper t ::
      displayFrames temperature_lower temperature_upper t n

/-- The relay update performed by one tick of `loop_update_relay`
(controller.py lines 115-123): two sequential guarded writes, `relay.on()`
when the temperature is below the lower threshold and the relay reads Off,
then `relay.off()` when the temperature is above the upper threshold and the
relay (after the first write) reads On. -/
def relayStep (temperature_lower temperature_upper : ℚ) (t : ℚ)
    (relayValue : ActuatorState) : ActuatorState :=
  let v1 := if t < temperature_lower ∧ relayValue = ActuatorState.Off then
      ActuatorState.On else relayValue
  let v2 := if t > temperature_upper ∧ v1 = ActuatorState.On then
      ActuatorState.Off else v1
  v2

/-- Relay state after folding a sequence of tick temperatures through
`relayStep`, starting from state `s`. -/
def relayStates (temperature_lower temperature_upper : ℚ) (ts : List ℚ)
    (s : ActuatorState) : ActuatorState :=
  ts.foldl (fun st t => relayStep temperature_lower temperature_upper t st) s

/-- `initial_value=False` in `gpiozero.OutputDevice(17, active_high=True,
initial_value=False)` at controller.py line 80: the relay starts Off. -/
def relayInitialValue : ActuatorState := ActuatorState.Off

lemma relayStep_off_of_not_lt (l u t : ℚ) (h : ¬ t < l) :
    relayStep l u t ActuatorState.Off = ActuatorState.Off := by
  simp [relayStep, h]

/-- C1: with `lower < upper`, the hysteresis step turns the relay On exactly
when the reading is below the lower threshold and the relay is Off, turns it
Off exactly when the reading is above the upper threshold and the relay is
On, makes no change for readings inside the band `[lower, upper]`, and
those two guarded writes are the only transitions it ever makes. -/
theorem c1_hysteresis_decide (l u r : ℚ) (h : l < u) :
    (relayStep l u r ActuatorState.Off = ActuatorState.On ↔ r < l) ∧
    (relayStep l u r ActuatorState.On = ActuatorState.Off ↔ u < r) ∧
    (l ≤ r → r ≤ u → ∀ s, relayStep l u r s = s) ∧
    (∀ s, relayStep l u r s ≠ s →
      (s = ActuatorState.Off ∧ relayStep l u r s = ActuatorState.On ∧ r < l) ∨
      (s = ActuatorState.On ∧ relayStep l u r s = ActuatorState.Off ∧ u < r)) := by
  refine ⟨?_, ?_, ?_, ?_⟩
  · by_cases h1 : r < l
    · have h2 : ¬ r > u := by linarith
      simp [relayStep, h1, h2]
    · simp [relayStep, h1]
  · by_cases h2 : r > u
    · simp [relayStep, h2]
    · simp [relayStep, h2]
  · intro hl hu s
    have h1 : ¬ r < l := by linarith
    have h2 : ¬ r > u := by linarith
    simp [relayStep, h1, h2]
  · intro s hs
    cases s with
    | Off =>
      by_cases h1 : r < l
      · have h2 : ¬ r > u := by linarith
        left
        exact ⟨rfl, by simp [relayStep, h1, h2], h1⟩
      · exact absurd (relayStep_off_of_not_lt l u r h1) hs
    | On =>
      by_cases h2 : r > u
      · right
        exact ⟨rfl, by simp [relayStep, h2], h2⟩
      · exfalso
        apply hs
        simp [relayStep, h2]

/-- Witness for C1 at the spec scenario `lower = 18`, `upper = 22`,
reading `15`, relay Off: the relay turns On. -/
theorem c1_hysteresis_decide_witness :
    relayStep 18 22 15 ActuatorState.Off = ActuatorState.On :=
  (c1_hysteresis_decide 18 22 15 (by norm_num)).1.mpr (by norm_num)

/-- C5 counterexample: the claim quantifies over every thresholds pair, but
with inverted thresholds `lower = 1 > upper = 0` and reading `1/2 > upper`
the code renders the "cold" colour (the first branch fires because the
reading is also below `lower`), not the "hot" colour the claim demands. -/
theorem c5_counterexample :
    (0 : ℚ) < 1 / 2 ∧ ledMatrixColor 1 0 (1 / 2) = colorBlue ∧
      colorBlue ≠ colorRed := by
  refine ⟨by norm_num, ?_, by decide⟩
  have h : (1 : ℚ) / 2 < 1 := by norm_num
  rw [ledMatrixColor, if_pos h]

/-- C5 (amended with `lower ≤ upper`, which the startup check enforces
strictly): the band colour is the cold colour when the reading is below the
lower threshold, the hot colour when it is above the upper threshold, and
the nominal colour inside `[lower, upper]`; the classification is a function
of the reading and thresholds only, with no actuator-state argument. -/
theorem c5_band_color (l u r : ℚ) (h : l ≤ u) :
    (r < l → ledMatrixColor l u r = colorBlue) ∧
    (u < r → ledMatrixColor l u r = colorRed) ∧
    (l ≤ r → r ≤ u → ledMatrixColor l u r = colorWhite) := by
  refine ⟨?_, ?_, ?_⟩
  · intro h1
    simp [ledMatrixColor, h1]
  · intro h2
    have h1 : ¬ r < l := by linarith
    simp [ledMatrixColor, h1, h2]
  · intro hl hu
    have h1 : ¬ r < l := by linarith
    have h2 : ¬ r > u := by linarith
    simp [ledMatrixColor, h1, h2]

/-- Witness for C5 at the spec scenario `lower = 18`, `upper = 22`,
reading `15`: the matrix is cleared to the cold colour. -/
theorem c5_band_color_witness : ledMatrixColor 18 22 15 = colorBlue :=
  (c5_band_color 18 22 15 (by norm_num)).1 (by norm_num)

/-- C6: rendering is a pure function of the reading and thresholds — over
any number of display ticks on the same inputs, every pushed frame is the
identical one, so the trace is a constant list. -/
theorem c6_render_pure (l u r : ℚ) (n : ℕ) :
    displayFrames l u r n = List.replicate n (ledMatrixFrame l u r) := by
  induction n with
  | zero => rfl
  | succ k ih => simp [displayFrames, ih, List.replicate_succ]

/-- Outcome of the `control` command before the asyncio session runs:
either a fatal failure with a process exit code, before any task has been
created, or the tasks are started. -/
inductive ControlOutcome
  | fatalBeforeTasks (exitCode : ℕ)
  | tasksStarted
deriving DecidableEq

/-- The startup checks of the `control` command (controller.py lines
146-148): `assert temperature_lower < temperature_upper` and
`assert update_interval > 0` run before `asyncio.run(session(...))`; a
failed Python assert raises AssertionError, which here is uncaught (the
asserts precede the try block) and terminates the process with exit code 1. -/
def control (temperature_lower temperature_upper : ℚ) (update_interval : ℤ) :
    ControlOutcome :=
  if ¬ temperature_lower < temperature_upper then ControlOutcome.fatalBeforeTasks 1
  else if ¬ update_interval > 0 then ControlOutcome.fatalBeforeTasks 1
  else ControlOutcome.tasksStarted

/-- C7: the process starts its tasks exactly when the thresholds are ordered
and the update interval is positive; otherwise it fails before any task is
created, with a non-zero exit code. -/
theorem c7_config_validation (l u : ℚ) (i : ℤ) :
    (control l u i = ControlOutcome.tasksStarted ↔ (l < u ∧ 0 < i)) ∧
    (¬ (l < u ∧ 0 < i) →
      ∃ c, control l u i = ControlOutcome.fatalBeforeTasks c ∧ c ≠ 0) := by
  constructor
  · constructor
    · intro hok
      by_cases h1 : l < u
      · by_cases h2 : 0 < i
        · exact ⟨h1, h2⟩
        · simp [control, h1, h2] at hok
      · simp [control, h1] at hok
    · rintro ⟨h1, h2⟩
      simp [control, h1, h2]
  · intro hbad
    by_cases h1 : l < u
    · have h2 : ¬ 0 < i := fun h2 => hbad ⟨h1, h2⟩
      exact ⟨1, by simp [control, h1, h2], by norm_num⟩
    · exact ⟨1, by simp [control, h1], by norm_num⟩

/-- Witness for C7 at the default configuration `lower = 35`, `upper = 40`,
`interval = 60`: both checks pass and the tasks start. -/
theorem c7_config_validation_witness : control 35 40 60 = ControlOutcome.tasksStarted :=
  (c7_config_validation 35 40 60).1.mpr ⟨by norm_num, by norm_num⟩

/-- Python `random.randint(lo, hi)` returns an integer in the closed range
`[lo, hi]`; the generator is modelled as reducing a seed modulo the range
size. -/
def randint (lo hi : ℤ) (seed : ℕ) : ℤ := lo + (seed : ℤ) % (hi - lo + 1)

/-- Celsius-to-Fahrenheit conversion at controller.py line 95. -/
def toFahrenheit (c : ℚ) : ℚ := c * 9 / 5 + 32

/-- The value held by `CURRENT_TEMPERATURE` at the end of the assignment
sequence in one relay tick (controller.py lines 90-98): the sensor sample,
then the optional Fahrenheit conversion, then the unconditional overwrite
`CURRENT_TEMPERATURE = random.randint(25, 45)`. -/
def relayTickTemperature (sensorReading : ℚ) (use_fahrenheit : Bool)
    (seed : ℕ) : ℚ :=
  let t0 := sensorReading
  let _t1 := if use_fahrenheit then toFahrenheit t0 else t0
  let t2 := ((randint 25 45 seed : ℤ) : ℚ)
  t2

/-- One full iteration of the relay loop body: compute the tick temperature,
then run the guarded relay writes on it; returns the temperature used for
the echoed line and the relay decision, and the relay state after the tick. -/
def relayTick (temperature_lower temperature_upper : ℚ) (use_fahrenheit : Bool)
    (sensorReading : ℚ) (seed : ℕ) (relayValue : ActuatorState) :
    ℚ × ActuatorState :=
  let t := relayTickTemperature sensorReading use_fahrenheit seed
  (t, relayStep temperature_lower temperature_upper t relayValue)

lemma randint_25_45_mem (seed : ℕ) :
    25 ≤ randint 25 45 seed ∧ randint 25 45 seed ≤ 45 := by
  unfold randint
  omega

/-- C9: in every relay tick, after the sensor read and the optional
Fahrenheit conversion, the shared temperature is overwritten with a
pseudo-random integer in `[25, 45]`; the value used for the relay decision
(and echoed, and left for the display loop) is that integer, independent of
the sensor reading and of the selected unit. -/
theorem c9_random_overwrite (l u sensorReading : ℚ) (use_fahrenheit : Bool)
    (seed : ℕ) (s : ActuatorState) :
    (∃ k : ℤ, relayTickTemperature sensorReading use_fahrenheit seed = (k : ℚ) ∧
      25 ≤ k ∧ k ≤ 45) ∧
    (∀ (r2 : ℚ) (u2 : Bool),
      relayTickTemperature r2 u2 seed =
        relayTickTemperature sensorReading use_fahrenheit seed) ∧
    relayTick l u use_fahrenheit sensorReading seed s =
      (relayTickTemperature sensorReading use_fahrenheit seed,
        relayStep l u (relayTickTemperature sensorReading use_fahrenheit seed) s) := by
  refine ⟨⟨randint 25 45 seed, rfl, (randint_25_45_mem seed).1,
    (randint_25_45_mem seed).2⟩, ?_, rfl⟩
  intro r2 u2
  rfl

/-- C4: the relay decision is made against the random overwrite, not the
tick's sensor sample. With sensor sample `20` (Celsius selected) and a seed
drawing `30`, the value compared with the thresholds is `30`, not `20`. -/
theorem c4_decision_ignores_sensor_sample :
    relayTickTemperature 20 false 5 = 30 ∧ (30 : ℚ) ≠ 20 := by
  constructor
  · show ((randint 25 45 5 : ℤ) : ℚ) = 30
    norm_num [randint]
  · norm_num

/-- C10: the relay is created Off (`initial_value=False`) before the first
sensor sample is taken; from Off it stays Off across any sequence of tick
temperatures at or above the lower threshold, and the only transition
possible out of Off is a turn-On, triggered by a reading below the lower
threshold. -/
theorem c10_relay_starts_off (l u : ℚ) :
    relayInitialValue = ActuatorState.Off ∧
    (∀ ts : List ℚ, (∀ t ∈ ts, l ≤ t) →
      relayStates l u ts ActuatorState.Off = ActuatorState.Off) ∧
    (∀ t : ℚ, relayStep l u t ActuatorState.Off ≠ ActuatorState.Off →
      relayStep l u t ActuatorState.Off = ActuatorState.On ∧ t < l) := by
  refine ⟨rfl, ?_, ?_⟩
  · intro ts
    induction ts with
    | nil => intro _; rfl
    | cons t rest ih =>
      intro hall
      have ht : l ≤ t := hall t (List.mem_cons_self t rest)
      have hstep : relayStep l u t ActuatorState.Off = ActuatorState.Off :=
        relayStep_off_of_not_lt l u t (by linarith)
      have : relayStates l u (t :: rest) ActuatorState.Off =
          relayStates l u rest (relayStep l u t ActuatorState.Off) := rfl
      rw [this, hstep]
      exact ih fun x hx => hall x (List.mem_cons_of_mem t hx)
  · intro t hne
    by_cases h1 : t < l
    · refine ⟨?_, h1⟩
      cases hstep : relayStep l u t ActuatorState.Off with
      | Off => exact absurd hstep hne
      | On => rfl
    · exact absurd (relayStep_off_of_not_lt l u t h1) hne

/-- Witness for C10 at `lower = 18`, `upper = 22` and in-band/above-band
readings `[19, 23, 20]`: the relay stays Off. -/
theorem c10_relay_starts_off_witness :
    relayStates 18 22 [19, 23, 20] ActuatorState.Off = ActuatorState.Off :=
  (c10_relay_starts_off 18 22).2.1 [19, 23, 20] (by
    intro t ht
    simp only [List.mem_cons, List.not_mem_nil, or_false] at ht
    rcases ht with h | h | h <;> rw [h] <;> norm_num)

/-- Process lifecycle state from the spec: Running until the termination
signal, then Terminating. -/
inductive ProcessLifecycleState
  | Running
  | Terminating
deriving DecidableEq

/-- The loop condition of `loop_update_led_matrix` (controller.py line 55).
The argument is the lifecycle state the loop is supposed to consult; the
code's condition is the literal `while True`, which ignores it. -/
def loop_update_led_matrix_guard (_s : ProcessLifecycleState) : Bool := true

/-- The loop condition of `loop_update_relay` (controller.py line 87),
likewise the literal `while True`. -/
def loop_update_relay_guard (_s : ProcessLifecycleState) : Bool := true

/-- Whether the LED-matrix task is still looping after `n` ticks, given the
lifecycle state observed at each tick: it keeps looping as long as its guard
holds at every tick so far. -/
def ledLoopRuns (lifecycle : ℕ → ProcessLifecycleState) : ℕ → Bool
  | 0 => true
  | n + 1 => ledLoopRuns lifecycle n && loop_update_led_matrix_guard (lifecycle (n + 1))

/-- Whether the relay task is still looping after `n` ticks. -/
def relayLoopRuns (lifecycle : ℕ → ProcessLifecycleState) : ℕ → Bool
  | 0 => true
  | n + 1 => relayLoopRuns lifecycle n && loop_update_relay_guard (lifecycle (n + 1))

/-- C2 fails on the code: both loop conditions are `while True`, so even
when the lifecycle state is Terminating at every tick, both tasks are still
looping after any number of ticks and never return — the
"Stopping updates..." lines after the loops (controller.py lines 72 and 128)
are unreachable. -/
theorem c2_loops_never_observe_termination (n : ℕ) :
    loop_update_led_matrix_guard ProcessLifecycleState.Terminating = true ∧
    loop_update_relay_guard ProcessLifecycleState.Terminating = true ∧
    ledLoopRuns (fun _ => ProcessLifecycleState.Terminating) n = true ∧
    relayLoopRuns (fun _ => ProcessLifecycleState.Terminating) n = true := by
  refine ⟨rfl, rfl, ?_, ?_⟩
  · induction n with
    | zero => rfl
    | succ k ih => simp [ledLoopRuns, ih, loop_update_led_matrix_guard]
  · induction n with
    | zero => rfl
    | succ k ih => simp [relayLoopRuns, ih, loop_update_relay_guard]

/-- An observable action of the `control` command: a frame pushed to the
LED matrix, or a console line. -/
inductive ControlEvent
  | display (frame : List Color)
  | echo
deriving DecidableEq

/-- Whether an event is a display action. -/
def isDisplayEvent : ControlEvent → Bool
  | ControlEvent.display _ => true
  | ControlEvent.echo => false

/-- The observable actions of the `control` command around the asyncio
session (controller.py lines 150-171): the session's own events, then — in
the `except Exception` clause, only when the session raised — the traceback
echo, then the `finally` clause's `SENSE.clear()`, which pushes an all-black
frame. -/
def controlTrace (sessionEvents : List ControlEvent) (raised : Bool) :
    List ControlEvent :=
  sessionEvents ++ (if raised then [ControlEvent.echo] else []) ++
    [ControlEvent.display (senseClear colorBlack)]

/-- C8: whatever the session did and whether or not it raised, the last
observable action of `control` — and in particular its last display action —
is clearing the matrix to the all-black (blank/off) frame, performed after
all session events. -/
theorem c8_clear_is_final_display_action (sessionEvents : List ControlEvent)
    (raised : Bool) :
    ((controlTrace sessionEvents raised).filter isDisplayEvent).getLast? =
      some (ControlEvent.display (senseClear colorBlack)) ∧
    (controlTrace sessionEvents raised).getLast? =
      some (ControlEvent.display (senseClear colorBlack)) := by
  constructor
  · rw [controlTrace, List.filter_append]
    have hfinal : List.filter isDisplayEvent
        [ControlEvent.display (senseClear colorBlack)] =
        [ControlEvent.display (senseClear colorBlack)] := rfl
    rw [hfinal]
    exact List.getLast?_concat _
  · rw [controlTrace]
    exact List.getLast?_concat _

/-- Recording-session state from the spec: Idle or InProgress. -/
inductive SessionState
  | Idle
  | InProgress
deriving DecidableEq

/-- Shutdown-relevant events of the Session Controller task and the
Runtime. -/
inductive ShutdownEvent
  | recordRow
  | closeSession
  | sessionTaskReturn
  | joinTasks
deriving DecidableEq

/-- Modelled from the spec: the Session Controller task is absent from the
source under src (the spec notes the observed logging control flow is
incomplete). Per sections 4.3 and 4.4, the task records one row per tick
while Running with the session InProgress; when it observes the lifecycle
state Terminating, it closes (flushes and finalizes) the open session's
storage handle if one is open, and only then returns. `completedTicks` is
the number of ticks completed before the task observes Terminating, and
`st` is the session state at that observation. -/
def sessionTaskEvents (completedTicks : ℕ) (st : SessionState) :
    List ShutdownEvent :=
  List.replicate completedTicks ShutdownEvent.recordRow ++
    (if st = SessionState.InProgress then [ShutdownEvent.closeSession] else []) ++
    [ShutdownEvent.sessionTaskReturn]

/-- Modelled from the spec: the Runtime joins all tasks, which completes
only after the Session Controller task has returned. -/
def runtimeShutdownEvents (completedTicks : ℕ) (st : SessionState) :
    List ShutdownEvent :=
  sessionTaskEvents completedTicks st ++ [ShutdownEvent.joinTasks]

/-- C3: if the session is InProgress when the lifecycle becomes Terminating,
the shutdown trace ends with a session close, then the task return, then the
join — the open session's storage handle is closed before the task returns,
the join completes only after the close, and neither the return nor the join
occurs anywhere earlier in the trace. -/
theorem c3_open_session_closed_before_join (completedTicks : ℕ) :
    ∃ pre, runtimeShutdownEvents completedTicks SessionState.InProgress =
        pre ++ [ShutdownEvent.closeSession, ShutdownEvent.sessionTaskReturn,
          ShutdownEvent.joinTasks] ∧
      ShutdownEvent.closeSession ∉ pre ∧
      ShutdownEvent.sessionTaskReturn ∉ pre ∧
      ShutdownEvent.joinTasks ∉ pre := by
  refine ⟨List.replicate completedTicks ShutdownEvent.recordRow, ?_, ?_, ?_, ?_⟩
  · simp [runtimeShutdownEvents, sessionTaskEvents]
  · intro hmem
    exact absurd (List.eq_of_mem_replicate hmem) (by decide)
  · intro hmem
    exact absurd (List.eq_of_mem_replicate hmem) (by decide)
  · intro hmem
    exact absurd (List.eq_of_mem_replicate hmem) (by decide)

end RV
